import Mathlib

-- Verification of the CLIF potential-donor-identifier pipeline.
-- Shallow embedding of src/code/01_potential_donor_identifier.py and
-- src/utils/{io.py, outlier_handler.py}.  Timestamps are modelled as
-- integer epoch seconds; polars float hour columns as exact rationals;
-- nullable columns as Option; polars three-valued comparison semantics
-- via Option Bool with Kleene conjunction, where a filter keeps a row
-- only when the predicate evaluates to true (nulls are dropped).

set_option maxRecDepth 4000

namespace DonorId

/-- Nullable subtraction of two timestamp columns (polars: any null operand
propagates null). -/
def optSub (a b : Option Int) : Option Int :=
  match a, b with
  | some x, some y => some (x - y)
  | _, _ => none

/-- Polars `.dt.total_seconds() / 3600`: seconds difference converted to
fractional hours, null-propagating. -/
def hrsQ (diff : Option Int) : Option ℚ :=
  diff.map (fun s => (s : ℚ) / 3600)

/-- Nullable `<=` comparison (polars: null operand yields null). -/
def optLE (a b : Option ℚ) : Option Bool :=
  match a, b with
  | some x, some y => some (decide (x ≤ y))
  | _, _ => none

/-- Kleene three-valued conjunction used by polars `&` on nullable booleans. -/
def optAnd (a b : Option Bool) : Option Bool :=
  match a, b with
  | some false, _ => some false
  | _, some false => some false
  | some true, some true => some true
  | _, _ => none

/-- Polars filter semantics: a row is kept only when the boolean expression
is literally true; null and false are both dropped. -/
def keepTrue (b : Option Bool) : Bool := b.getD false

/-- Polars `str.to_lowercase` / Python `str.lower`, character-wise ASCII
lowercasing (all category strings and codes in this data are ASCII). -/
def to_lowercase (s : String) : String :=
  ⟨s.data.map Char.toLower⟩

/-! Microbiology screener filter, from src/code/01_potential_donor_identifier.py
lines 990-994. -/

/-- Row-level predicate of `micro_culture_filtered`: the code keeps culture
rows with `fluid_category.str.to_lowercase() == "blood_buffy"` and
`method_category.str.to_lowercase() == "culture"`. -/
def micro_culture_filtered (fluid method : String) : Bool :=
  (to_lowercase fluid == "blood_buffy") && (to_lowercase method == "culture")

/-! Time-of-death resolution, lines 273-290. -/

/-- Embedding of the `adjusted_death_dttm` expression: when death and
discharge are both non-null and death is strictly later than discharge,
take discharge, otherwise the (possibly null) death timestamp. -/
def adjusted_death_dttm (death discharge : Option Int) : Option Int :=
  match death, discharge with
  | some dd, some dc => if dc < dd then some dc else some dd
  | _, _ => death

/-- Embedding of the `final_death_dttm` expression: `adjusted_death_dttm`
when present, else the last recorded vital timestamp. -/
def final_death_dttm (adjusted lastVital : Option Int) : Option Int :=
  match adjusted with
  | some a => some a
  | none => lastVital

/-! IMV-proximity detector, lines 664-717. -/

/-- Latest recorded IMV timestamp for a patient: the code sorts the joined
IMV records by `recorded_dttm` descending and takes the first row per
patient, i.e. the maximum timestamp. -/
def latest_imv (times : List Int) : Option Int :=
  times.max?

/-- Column `hr_2death_last_imv`: `(final_death_dttm - recorded_dttm)` in
fractional hours (line 689-693). -/
def hr_2death_last_imv (d t : Int) : ℚ :=
  ((d - t : Int) : ℚ) / 3600

/-- Patient flag `imv_48hr_expire` (lines 674-717): a patient is flagged
when their latest IMV record survives the filter
`hr_2death_last_imv >= -24 & hr_2death_last_imv <= 48`; patients with no
IMV record (or whose row is dropped by a null comparison) get the
left-join null filled with `False`. -/
def imv_48hr_expire (times : List Int) (death : Option Int) : Bool :=
  match latest_imv times with
  | none => false
  | some t =>
    let hr := hrsQ (optSub death (some t))
    keepTrue (optAnd (optLE (some (-24)) hr) (optLE hr (some 48)))

/-! CRRT within 48h of death, lines 860-907. -/

/-- Patient flag `on_crrt_48h_before_death`: CRRT records are first
filtered to `recorded_dttm <= final_death_dttm`, the hours-before-death
column is computed, rows with `0 <= hrs_before_death <= 48` are kept, and
the flag is true when any row remains (nulls propagate and are dropped by
the filters; the left-join null is filled with `False`). -/
def on_crrt_48h_before_death (times : List Int) (death : Option Int) : Bool :=
  let deathQ : Option ℚ := death.map (fun d => (d : ℚ))
  let before := times.filter (fun (t : Int) => keepTrue (optLE (some ((t : ℚ))) deathQ))
  let inWindow := before.filter (fun t =>
    let hrs := hrsQ (optSub death (some t))
    keepTrue (optAnd (optLE hrs (some 48)) (optLE (some 0) hrs)))
  !inWindow.isEmpty

/-! Microbiology 48h window and negativity, lines 997-1057. -/

/-- Literal prefix test on character lists. -/
def list_starts_with : List Char → List Char → Bool
  | [], _ => true
  | _ :: _, [] => false
  | a :: as, b :: bs => (a == b) && list_starts_with as bs

/-- Literal substring test on character lists (polars
`str.contains(..., literal=True)`). -/
def has_substring : List Char → List Char → Bool
  | needle, [] => needle.isEmpty
  | needle, c :: t => list_starts_with needle (c :: t) || has_substring needle t

/-- Column `is_negative_culture` (lines 1022-1028): organism category is
null, lowercases to the empty string, or contains the token
`no_growth`. -/
def is_negative_culture (organism : Option String) : Bool :=
  match organism with
  | none => true
  | some s =>
    (has_substring "no_growth".data (to_lowercase s).data) ||
    (to_lowercase s == "")

/-- Membership of a culture row in the 48-hours-before-death window
(lines 1007-1019): collection time non-null and
`0 <= hrs_before_death <= 48`; a null death time propagates null through
the comparison and the row is dropped. -/
def culture_in_48h_window (death collect : Option Int) : Bool :=
  let hrs := hrsQ (optSub death collect)
  collect.isSome && keepTrue (optLE hrs (some 48)) && keepTrue (optLE (some 0) hrs)

/-- Patient flag `no_positive_culture_48hrs` (lines 1031-1057): true iff no
blood-culture row in the 48h window is positive (i.e. non-negative). -/
def no_positive_culture_48hrs (cultures : List (Option Int × Option String))
    (death : Option Int) : Bool :=
  !(cultures.any (fun c => culture_in_48h_window death c.1 && !(is_negative_culture c.2)))

/-! Cause-of-death classifier, lines 544-587. -/

/-- Characters removed by `str.replace_all(r"[.\s]", "")`: the period and
regex whitespace. -/
def is_stripped_char (c : Char) : Bool :=
  c == '.' || c == ' ' || c == '\t' || c == '\n' || c == '\r' || c == '\x0b' || c == '\x0c'

/-- Diagnosis-code normalization `dx_norm` (lines 548-551): lowercase, then
strip periods and whitespace. -/
def normalize_code (s : String) : String :=
  ⟨((to_lowercase s).data.filter (fun c => !(is_stripped_char c)))⟩

/-- Regex `\w` word character (codes are ASCII alphanumerics). -/
def is_word_char (c : Char) : Bool :=
  c.isAlphanum || c == '_'

/-- Full-string match of the anchored regex `^i2[0-5]\w*$`. -/
def match_ischemic : List Char → Bool
  | 'i' :: '2' :: c :: rest => ('0' ≤ c && c ≤ '5') && rest.all is_word_char
  | _ => false

/-- Full-string match of the anchored regex `^i6[0-9]\w*$`. -/
def match_cerebro : List Char → Bool
  | 'i' :: '6' :: c :: rest => c.isDigit && rest.all is_word_char
  | _ => false

/-- Full-string match of the anchored regex
`^(v0[1-9]|v[1-9]\d|w\d{2}|x\d{2}|y[0-8]\d)\w*$`. -/
def match_external : List Char → Bool
  | a :: b :: c :: rest =>
    (((a == 'v') && (b == '0') && ('1' ≤ c && c ≤ '9')) ||
     ((a == 'v') && ('1' ≤ b && b ≤ '9') && c.isDigit) ||
     ((a == 'w') && b.isDigit && c.isDigit) ||
     ((a == 'x') && b.isDigit && c.isDigit) ||
     ((a == 'y') && ('0' ≤ b && b ≤ '8') && c.isDigit)) &&
    rest.all is_word_char
  | _ => false

/-- Coding-system guard `sys.is_in(["icd10", "icd10cm"])` applied to the
lowercased `diagnosis_code_format` column (lines 552-556). -/
def sys_enabled (sys : String) : Bool :=
  (to_lowercase sys == "icd10") || (to_lowercase sys == "icd10cm")

/-- Row flag `icd10_ischemic` (lines 558-562). -/
def icd10_ischemic (sys code : String) : Bool :=
  sys_enabled sys && match_ischemic (normalize_code code).data

/-- Row flag `icd10_cerebro` (lines 564-568). -/
def icd10_cerebro (sys code : String) : Bool :=
  sys_enabled sys && match_cerebro (normalize_code code).data

/-- Row flag `icd10_external` (lines 570-579). -/
def icd10_external (sys code : String) : Bool :=
  sys_enabled sys && match_external (normalize_code code).data

/-- Row flag `icd10_contraindication` (lines 581-585): membership of the
normalized code in the externally curated contraindication list. -/
def icd10_contraindication (contraindication_codes : List String) (sys code : String) : Bool :=
  sys_enabled sys && contraindication_codes.contains (normalize_code code)

example : normalize_code "I25.9" = "i259" := by decide
example : icd10_ischemic "ICD10CM" "I25.9" = true := by decide
example : icd10_ischemic "icd10cm" "I26" = false := by decide
example : icd10_ischemic "icd10cm" "i259" = true := by decide
example : icd10_cerebro "icd10cm" "I63.9" = true := by decide
example : icd10_external "icd10cm" "Y89" = true := by decide
example : icd10_external "icd10cm" "Y90" = false := by decide
example : icd10_external "icd10cm" "V01" = true := by decide
example : icd10_external "icd10cm" "V00" = false := by decide
example : icd10_external "icd10cm" "W19XXXA" = true := by decide
example : icd10_ischemic "icd9" "I25.9" = false := by decide
example : icd10_contraindication ["c189"] "icd10cm" "C18.9" = true := by decide

/-! Patient-level finalization, lines 1195-1237. -/

/-- A cohort row before finalization: patient identifier, the
encounter-level identifiers that get dropped, plus representative payload
columns (a timestamp column and a nullable covariate). -/
structure FRow where
  patient_id : String
  hospitalization_id : String
  encounter_block : Int
  discharge_dttm : Int
  covariate : Option Int
  deriving DecidableEq, Repr

/-- A cohort row after the encounter-level identifier columns are
dropped. -/
structure CRow where
  patient_id : String
  discharge_dttm : Int
  covariate : Option Int
  deriving DecidableEq, Repr

/-- Step 1 of finalization (lines 1196-1207): drop `hospitalization_id`
and `encounter_block`. -/
def drop_encounter_ids (r : FRow) : CRow :=
  ⟨r.patient_id, r.discharge_dttm, r.covariate⟩

/-- Polars `unique(subset=['patient_id'], keep='last')`: for each
`patient_id` keep the row occurring last in the frame. -/
def unique_keep_last : List CRow → List CRow
  | [] => []
  | r :: t =>
    if (unique_keep_last t).any (fun r2 => r2.patient_id == r.patient_id) then
      unique_keep_last t
    else
      r :: unique_keep_last t

/-- Number of distinct `patient_id` values (`n_unique`). -/
def n_unique_patients (t : List CRow) : Nat :=
  (t.map (fun r => r.patient_id)).dedup.length

/-- Errors the embedded pipeline steps can raise. -/
inductive PipeError where
  | assertionError
  | typeError
  | valueError
  | columnNotFound
  deriving DecidableEq, Repr

/-- Step 3 of finalization, the fatal assertion at lines 1228-1231:
`assert n_patients_final == n_rows_final`; on failure the run aborts
before `write_parquet` (line 1237). -/
def final_assert (t : List CRow) : Except PipeError (List CRow) :=
  if t.length = n_unique_patients t then Except.ok t else Except.error PipeError.assertionError

/-- Full finalization (lines 1195-1231): drop encounter identifiers, then
deduplicate with `unique(keep='last')` only when row count and distinct
patient count differ (lines 1214-1219), then run the fatal assertion. -/
def finalize_cohort (t : List FRow) : Except PipeError (List CRow) :=
  final_assert
    (if n_unique_patients (t.map drop_encounter_ids) = (t.map drop_encounter_ids).length
     then t.map drop_encounter_ids
     else unique_keep_last (t.map drop_encounter_ids))

/-! Loader, src/utils/io.py lines 7-34, and its call sites such as
src/code/01_potential_donor_identifier.py lines 225-231. -/

/-- Embedding of `read_data(filepath, filetype)` from src/utils/io.py: the
file system is abstracted as the two tables the two supported formats
would produce; any other format string raises
`ValueError("Unsupported file type...")`. -/
def read_data (filetype : String) (csvTable parquetTable : List CRow) :
    Except PipeError (List CRow) :=
  if filetype == "csv" then Except.ok csvTable
  else if filetype == "parquet" then Except.ok parquetTable
  else Except.error PipeError.valueError

/-- Parameter names of `read_data` as defined in src/utils/io.py. -/
def read_data_params : List String := ["filepath", "filetype"]

/-- Python call semantics for `read_data`: a keyword argument whose name is
not a parameter of the function raises `TypeError` before the body runs. -/
def call_read_data (kwargs : List String) (filetype : String)
    (csvTable parquetTable : List CRow) : Except PipeError (List CRow) :=
  if kwargs.all (fun k => read_data_params.contains k) then
    read_data filetype csvTable parquetTable
  else Except.error PipeError.typeError

/-- Modelled from the spec: the loader contract of spec section 6 — "
`(filepath, format) → table`, optionally pre-filtered to a given id column
and id set" — which src/utils/io.py does not implement although the
pipeline calls it this way.  The id column is the row's
`patient_id`-typed key field. -/
def read_data_spec (filetype : String) (csvTable parquetTable : List CRow)
    (filter_ids : Option (List String)) : Except PipeError (List CRow) :=
  (read_data filetype csvTable parquetTable).map (fun t =>
    match filter_ids with
    | some ids => t.filter (fun r => ids.contains r.patient_id)
    | none => t)

/-! Liver-lab and GCS/RASS pivot-plus-rename column model, lines 790-825
and 1163-1186. -/

/-- Column list produced by `DataFrame.pivot(values=..., index=...,
on=category)`: the index column followed by one column per distinct
category value observed in the data (in first-appearance order). -/
def pivot_columns (index : String) (cats : List String) : List String :=
  index :: cats.dedup

/-- Polars `DataFrame.rename(mapping)`: renames the mapped columns and
raises a column-not-found error when any key of the mapping is absent
from the frame. -/
def rename_columns (cols : List String) (mapping : List (String × String)) :
    Except PipeError (List String) :=
  if mapping.all (fun m => cols.contains m.1) then
    Except.ok (cols.map (fun c =>
      match mapping.find? (fun m => m.1 == c) with
      | some m => m.2
      | none => c))
  else Except.error PipeError.columnNotFound

/-- Columns of `latest_liver_values` (lines 792-807): pivot the grouped
liver labs on `lab_category`, then rename the three expected category
columns; `cats` is the list of `lab_category` values present in the
filtered labs rows. -/
def latest_liver_values_columns (cats : List String) : Except PipeError (List String) :=
  rename_columns (pivot_columns "hospitalization_id" cats)
    [("bilirubin_total", "bilirubin_total_value"), ("ast", "ast_value"), ("alt", "alt_value")]

/-- Columns of `patient_gcs_rass` (lines 1175-1179): pivot the closest
assessments on `assessment_category`, then rename the two expected
category columns. -/
def patient_gcs_rass_columns (cats : List String) : Except PipeError (List String) :=
  rename_columns (pivot_columns "hospitalization_id" cats)
    [("gcs_total", "gcs_total_value"), ("rass", "rass_value")]

/-! Outlier normalizer, src/utils/outlier_handler.py. -/

/-- One configured category range (`category -> {min, max}`). -/
structure RangeEntry where
  category : String
  lo : ℚ
  hi : ℚ

/-- The condition of one `when` clause of
`_build_category_dependent_expression` (lines 153-157): the row's category
matches (case-insensitively) and the original value lies outside
`[min, max]`; a null category or null value makes the polars condition
null, which `when` treats as not taken. -/
def category_condition (e : RangeEntry) (cat : Option String) (v : Option ℚ) : Bool :=
  (match cat with
   | some c => to_lowercase c == to_lowercase e.category
   | none => false) &&
  (match v with
   | some x => decide (x < e.lo) || decide (e.hi < x)
   | none => false)

/-- Value computed by the chained
`expr = pl.when(condition).then(None).otherwise(expr)` of
`_build_category_dependent_expression` (lines 144-162): every condition
refers to the original column, each taken branch yields null, and the
innermost `otherwise` is the original value. -/
def category_dependent_value (cfg : List RangeEntry) (cat : Option String)
    (v : Option ℚ) : Option ℚ :=
  cfg.foldl (fun acc e => if category_condition e cat v then none else acc) v

/-- One configured medication range (`med_category -> unit -> {min, max}`). -/
structure MedEntry where
  med : String
  unit : String
  lo : ℚ
  hi : ℚ

/-- The condition of one `when` clause of `_build_medication_expression`
(lines 178-183): compound key (drug category, dose unit) matches and the
original dose is outside `[min, max]`. -/
def med_condition (e : MedEntry) (med unit : Option String) (v : Option ℚ) : Bool :=
  (match med with
   | some c => to_lowercase c == to_lowercase e.med
   | none => false) &&
  (match unit with
   | some u => to_lowercase u == to_lowercase e.unit
   | none => false) &&
  (match v with
   | some x => decide (x < e.lo) || decide (e.hi < x)
   | none => false)

/-- Value computed by the chained expression of
`_build_medication_expression` (lines 165-188). -/
def med_dose_value (cfg : List MedEntry) (med unit : Option String)
    (v : Option ℚ) : Option ℚ :=
  cfg.foldl (fun acc e => if med_condition e med unit v then none else acc) v

/-- Value computed by `_build_simple_range_expression` (lines 191-205):
`when(col < min | col > max).then(None).otherwise(col)`; a null value
makes the condition null and the `otherwise` branch returns the null
value itself. -/
def simple_range_value (lo hi : ℚ) (v : Option ℚ) : Option ℚ :=
  match v with
  | none => none
  | some x => if decide (x < lo) || decide (hi < x) then none else some x

/-- Table-level `apply_outlier_handling` for a category-dependent value
column (lines 15-84 applied to vitals/labs/assessments): each row carries
its category and value, and the configured expression is applied to every
row; unconfigured tables or columns return the table unchanged (trivially
idempotent), so the configured path is the one modelled. -/
def apply_outlier_handling (cfg : List RangeEntry)
    (rows : List (Option String × Option ℚ)) : List (Option String × Option ℚ) :=
  rows.map (fun r => (r.1, category_dependent_value cfg r.1 r.2))

/-! Helper lemmas on the nullable-column primitives. -/

lemma optSub_none_left (b : Option Int) : optSub none b = none := rfl

lemma optSub_some_some (x y : Int) : optSub (some x) (some y) = some (x - y) := rfl

lemma hrsQ_none : hrsQ none = none := rfl

lemma optLE_none_left (b : Option ℚ) : optLE none b = none := rfl

lemma optLE_none_right (a : Option ℚ) : optLE a none = none := by
  cases a <;> rfl

lemma optAnd_none_none : optAnd none none = none := rfl

lemma optAnd_some_some (a b : Bool) : optAnd (some a) (some b) = some (a && b) := by
  cases a <;> cases b <;> rfl

lemma keepTrue_none : keepTrue none = false := rfl

lemma keepTrue_some (b : Bool) : keepTrue (some b) = b := rfl

/-- C2 counterexample: a culture record whose fluid category is exactly
"blood" (already lowercase) and whose method category is "culture" is NOT
kept by the screener's filter, contradicting the claim that records with
fluid category "blood" are exactly the ones considered. -/
theorem c2_counterexample :
    micro_culture_filtered "blood" "culture" = false ∧
    to_lowercase "blood" = "blood" ∧ to_lowercase "culture" = "culture" := by
  decide

/-- C2 (amended): the microbiology screener considers exactly those culture
records whose fluid category lowercases to "blood_buffy" and whose method
category lowercases to "culture"; records with fluid category "blood" (or
anything else) are never counted. -/
theorem c2_amended_blood_buffy_filter (fluid method : String) :
    micro_culture_filtered fluid method = true ↔
      (to_lowercase fluid = "blood_buffy" ∧ to_lowercase method = "culture") := by
  simp [micro_culture_filtered]

/-- C4: `adjusted_death_dttm` equals the recorded death timestamp except
when death and discharge are both non-null and death is strictly later
than discharge, in which case it equals the discharge timestamp; and
`final_death_dttm` equals `adjusted_death_dttm` when that is non-null,
else the last recorded vital timestamp. -/
theorem c4_death_time_resolution (death discharge lastVital : Option Int) :
    ((∃ dd dc, death = some dd ∧ discharge = some dc ∧ dc < dd) →
        adjusted_death_dttm death discharge = discharge) ∧
    (¬ (∃ dd dc, death = some dd ∧ discharge = some dc ∧ dc < dd) →
        adjusted_death_dttm death discharge = death) ∧
    (∀ a, adjusted_death_dttm death discharge = some a →
        final_death_dttm (adjusted_death_dttm death discharge) lastVital = some a) ∧
    (adjusted_death_dttm death discharge = none →
        final_death_dttm (adjusted_death_dttm death discharge) lastVital = lastVital) := by
  refine ⟨?_, ?_, ?_, ?_⟩
  · rintro ⟨dd, dc, rfl, rfl, hlt⟩
    simp [adjusted_death_dttm, hlt]
  · intro h
    cases death with
    | none => rfl
    | some dd =>
      cases discharge with
      | none => rfl
      | some dc =>
        have hnlt : ¬ dc < dd := fun hlt => h ⟨dd, dc, rfl, rfl, hlt⟩
        simp [adjusted_death_dttm, hnlt]
  · intro a ha
    rw [ha]
    rfl
  · intro ha
    rw [ha]
    rfl

/-- C4 witness: the theorem applied at death = 10, discharge = 5 (death
after discharge, clamped), and at a null adjusted value. -/
theorem c4_witness :
    adjusted_death_dttm (some 10) (some 5) = some 5 ∧
    final_death_dttm (adjusted_death_dttm none none) (some 7) = some 7 :=
  ⟨(c4_death_time_resolution (some 10) (some 5) none).1 ⟨10, 5, rfl, rfl, by norm_num⟩,
   (c4_death_time_resolution none none (some 7)).2.2.2 rfl⟩

/-- C5 (code behaviour at the failing input): when the filtered labs have
no rows for one of the liver-lab categories (here: no rows at all, or
only `bilirubin_total` rows), the pivot produces no column for the
missing categories and the subsequent `rename` raises a column-not-found
error — the run aborts instead of defaulting flags; likewise for the
GCS/RASS assessment pivot.  Only when every expected category is present
does the rename succeed. -/
theorem c5_pivot_rename_raises :
    latest_liver_values_columns [] = Except.error PipeError.columnNotFound ∧
    latest_liver_values_columns ["bilirubin_total"] = Except.error PipeError.columnNotFound ∧
    patient_gcs_rass_columns [] = Except.error PipeError.columnNotFound ∧
    latest_liver_values_columns ["bilirubin_total", "ast", "alt"] =
      Except.ok ["hospitalization_id", "bilirubin_total_value", "ast_value", "alt_value"] ∧
    patient_gcs_rass_columns ["gcs_total", "rass"] =
      Except.ok ["hospitalization_id", "gcs_total_value", "rass_value"] := by
  refine ⟨rfl, rfl, rfl, rfl, rfl⟩

/-- C6 (code behaviour at the failing input): `read_data` as defined in
src/utils/io.py accepts only `(filepath, filetype)`, so the pipeline's
call with keyword arguments `filter_ids` and `id_column` raises a
`TypeError`; the format dispatch itself returns the csv/parquet table and
raises an unsupported-format error otherwise; the spec-modelled loader
would instead return the pre-filtered table. -/
theorem c6_loader_divergence :
    call_read_data ["filter_ids", "id_column"] "parquet" []
        [⟨"a", 0, none⟩, ⟨"b", 1, none⟩] = Except.error PipeError.typeError ∧
    read_data "csv" [⟨"a", 0, none⟩] [] = Except.ok [⟨"a", 0, none⟩] ∧
    read_data "parquet" [] [⟨"b", 1, none⟩] = Except.ok [⟨"b", 1, none⟩] ∧
    read_data "feather" [] [] = Except.error PipeError.valueError ∧
    read_data_spec "parquet" [] [⟨"a", 0, none⟩, ⟨"b", 1, none⟩] (some ["a"]) =
      Except.ok [⟨"a", 0, none⟩] := by
  refine ⟨rfl, rfl, rfl, rfl, rfl⟩

/-- C9: with coding system `icd10cm`, code "I25.9" sets the ischemic flag,
"I26" does not, "Y89" sets the external flag, "Y90" does not; and any row
whose (lowercased) coding system is neither "icd10" nor "icd10cm" sets no
cause flag and no contraindication flag. -/
theorem c9_icd_range_boundaries :
    icd10_ischemic "icd10cm" "I25.9" = true ∧
    icd10_ischemic "icd10cm" "I26" = false ∧
    icd10_external "icd10cm" "Y89" = true ∧
    icd10_external "icd10cm" "Y90" = false ∧
    (∀ sys code : String,
      ¬ (to_lowercase sys = "icd10" ∨ to_lowercase sys = "icd10cm") →
      icd10_ischemic sys code = false ∧ icd10_cerebro sys code = false ∧
      icd10_external sys code = false ∧
      ∀ l : List String, icd10_contraindication l sys code = false) := by
  refine ⟨by decide, by decide, by decide, by decide, ?_⟩
  intro sys code h
  have hs : sys_enabled sys = false := by
    unfold sys_enabled
    rw [not_or] at h
    simp [h.1, h.2]
  exact ⟨by simp [icd10_ischemic, hs], by simp [icd10_cerebro, hs],
    by simp [icd10_external, hs], fun l => by simp [icd10_contraindication, hs]⟩

/-- C9 witness: the theorem applied at coding system "icd9" with code
"I25.9": no cause flag is set for a non-ICD-10 coding system. -/
theorem c9_witness :
    icd10_ischemic "icd9" "I25.9" = false ∧ icd10_external "icd9" "Y89" = false :=
  ⟨(c9_icd_range_boundaries.2.2.2.2 "icd9" "I25.9" (by decide)).1,
   (c9_icd_range_boundaries.2.2.2.2 "icd9" "Y89" (by decide)).2.2.1⟩

/-- C10: with a null `final_death_dttm`, every death-relative window
comparison propagates null and selects no events, so the patient ends
with `imv_48hr_expire = false`, `on_crrt_48h_before_death = false` and
`no_positive_culture_48hrs = true`, whatever events their tables hold. -/
theorem c10_null_death_defaults (imvTimes crrtTimes : List Int)
    (cultures : List (Option Int × Option String)) :
    imv_48hr_expire imvTimes none = false ∧
    on_crrt_48h_before_death crrtTimes none = false ∧
    no_positive_culture_48hrs cultures none = true := by
  refine ⟨?_, ?_, ?_⟩
  · unfold imv_48hr_expire
    cases h : latest_imv imvTimes with
    | none => rfl
    | some t =>
      simp only [optSub_none_left, hrsQ_none, optLE_none_left, optLE_none_right,
        optAnd_none_none, keepTrue_none]
  · unfold on_crrt_48h_before_death
    simp [optLE_none_right, keepTrue_none]
  · unfold no_positive_culture_48hrs
    simp only [Bool.not_eq_true']
    rw [List.any_eq_false]
    intro c _
    simp [culture_in_48h_window, optSub_none_left, hrsQ_none, optLE_none_left, keepTrue_none]

/-- Evaluation of the IMV flag on a single IMV record. -/
lemma imv_single (d t : Int) :
    imv_48hr_expire [t] (some d) =
      (decide ((-24 : ℚ) ≤ hr_2death_last_imv d t) && decide (hr_2death_last_imv d t ≤ 48)) := by
  show keepTrue (optAnd (some _) (some _)) = _
  rw [optAnd_some_some]
  rfl

/-- C3: for any patient with at least one IMV record, the flag is true iff
`hr_2death_last_imv` computed from the latest IMV timestamp lies in
`[-24, 48]` hours inclusive; a record exactly 48 hours before death gives
true, 48h + 1s before gives false, exactly 24h after death gives true,
24h + 1s after gives false; and with no IMV record the flag is false. -/
theorem c3_imv_window (times : List Int) (d t : Int) (death : Option Int) :
    (latest_imv times = some t →
      (imv_48hr_expire times (some d) = true ↔
        (-24 ≤ hr_2death_last_imv d t ∧ hr_2death_last_imv d t ≤ 48))) ∧
    imv_48hr_expire [d - 172800] (some d) = true ∧
    imv_48hr_expire [d - 172801] (some d) = false ∧
    imv_48hr_expire [d + 86400] (some d) = true ∧
    imv_48hr_expire [d + 86401] (some d) = false ∧
    imv_48hr_expire [] death = false := by
  refine ⟨?_, ?_, ?_, ?_, ?_, rfl⟩
  · intro h
    unfold imv_48hr_expire
    rw [h]
    show keepTrue (optAnd (some _) (some _)) = true ↔ _
    rw [optAnd_some_some, keepTrue_some, Bool.and_eq_true, decide_eq_true_iff, decide_eq_true_iff]
    exact Iff.rfl
  · rw [imv_single]
    have hv : hr_2death_last_imv d (d - 172800) = 48 := by
      unfold hr_2death_last_imv
      have : d - (d - 172800) = (172800 : Int) := by ring
      rw [this]
      norm_num
    rw [hv]
    norm_num
  · rw [imv_single]
    have hv : hr_2death_last_imv d (d - 172801) = 172801 / 3600 := by
      unfold hr_2death_last_imv
      have : d - (d - 172801) = (172801 : Int) := by ring
      rw [this]
      norm_num
    rw [hv]
    have : ¬ ((172801 : ℚ) / 3600 ≤ 48) := by
      rw [div_le_iff₀ (by norm_num : (0 : ℚ) < 3600)]
      norm_num
    simp [this]
  · rw [imv_single]
    have hv : hr_2death_last_imv d (d + 86400) = -24 := by
      unfold hr_2death_last_imv
      have : d - (d + 86400) = (-86400 : Int) := by ring
      rw [this]
      norm_num
    rw [hv]
    norm_num
  · rw [imv_single]
    have hv : hr_2death_last_imv d (d + 86401) = -86401 / 3600 := by
      unfold hr_2death_last_imv
      have : d - (d + 86401) = (-86401 : Int) := by ring
      rw [this]
      push_cast
      norm_num
    rw [hv]
    have : ¬ ((-24 : ℚ) ≤ -86401 / 3600) := by
      rw [le_div_iff₀ (by norm_num : (0 : ℚ) < 3600)]
      norm_num
    simp [this]

/-- C3 witness: the theorem applied to a single IMV record one hour before
death. -/
theorem c3_witness :
    imv_48hr_expire [0] (some 3600) = true ↔
      (-24 ≤ hr_2death_last_imv 3600 0 ∧ hr_2death_last_imv 3600 0 ≤ 48) :=
  (c3_imv_window [0] 3600 0 none).1 rfl

/-- The chained when/otherwise fold started from a null accumulator stays
null: both branches of every step are null. -/
lemma foldl_ite_none {α : Type} (l : List α) (p : α → Bool) :
    l.foldl (fun (acc : Option ℚ) e => if p e then none else acc) none = none := by
  induction l with
  | nil => rfl
  | cons e l ih => simpa [List.foldl_cons, ite_self] using ih

/-- The chained when/otherwise fold returns either null or its starting
accumulator. -/
lemma foldl_ite_cases {α : Type} (l : List α) (p : α → Bool) (v : Option ℚ) :
    ∀ acc : Option ℚ, acc = none ∨ acc = v →
      (l.foldl (fun (acc : Option ℚ) e => if p e then none else acc) acc = none ∨
       l.foldl (fun (acc : Option ℚ) e => if p e then none else acc) acc = v) := by
  induction l with
  | nil => intro acc h; simpa using h
  | cons e l ih =>
    intro acc h
    rw [List.foldl_cons]
    apply ih
    by_cases hp : p e
    · simp [hp]
    · simpa [hp] using h

lemma category_dependent_value_none (cfg : List RangeEntry) (cat : Option String) :
    category_dependent_value cfg cat none = none :=
  foldl_ite_none cfg _

lemma category_dependent_value_idem (cfg : List RangeEntry) (cat : Option String)
    (v : Option ℚ) :
    category_dependent_value cfg cat (category_dependent_value cfg cat v) =
      category_dependent_value cfg cat v := by
  rcases foldl_ite_cases cfg (fun e => category_condition e cat v) v v (Or.inr rfl) with h | h
  · unfold category_dependent_value at *
    rw [h]
    exact foldl_ite_none cfg _
  · unfold category_dependent_value at *
    rw [h]
    exact h

/-- C7: applying the outlier normalizer twice yields the same table as
applying it once — for the whole category-dependent table transform and
for each of the three row-level expressions the handler builds
(category-dependent, medication compound-key, simple range). -/
theorem c7_outlier_idempotent :
    (∀ (cfg : List RangeEntry) (rows : List (Option String × Option ℚ)),
      apply_outlier_handling cfg (apply_outlier_handling cfg rows) =
        apply_outlier_handling cfg rows) ∧
    (∀ (cfg : List RangeEntry) (cat : Option String) (v : Option ℚ),
      category_dependent_value cfg cat (category_dependent_value cfg cat v) =
        category_dependent_value cfg cat v) ∧
    (∀ (cfg : List MedEntry) (med unit : Option String) (v : Option ℚ),
      med_dose_value cfg med unit (med_dose_value cfg med unit v) =
        med_dose_value cfg med unit v) ∧
    (∀ (lo hi : ℚ) (v : Option ℚ),
      simple_range_value lo hi (simple_range_value lo hi v) = simple_range_value lo hi v) := by
  refine ⟨?_, category_dependent_value_idem, ?_, ?_⟩
  · intro cfg rows
    induction rows with
    | nil => rfl
    | cons r t ih =>
      simp only [apply_outlier_handling, List.map_cons, List.map_map] at *
      exact List.cons_eq_cons.mpr ⟨by rw [category_dependent_value_idem], ih⟩
  · intro cfg med unit v
    rcases foldl_ite_cases cfg (fun e => med_condition e med unit v) v v (Or.inr rfl) with h | h
    · unfold med_dose_value at *
      rw [h]
      exact foldl_ite_none cfg _
    · unfold med_dose_value at *
      rw [h]
      exact h
  · intro lo hi v
    cases v with
    | none => rfl
    | some x =>
      unfold simple_range_value
      by_cases hx : (decide (x < lo) || decide (hi < x)) = true
      · simp [hx]
      · simp [hx]

/-- A patient identifier occurs among the deduplicated rows iff it occurs
among the original rows. -/
lemma unique_keep_last_any (t : List CRow) (q : String) :
    (unique_keep_last t).any (fun r => r.patient_id == q) =
      t.any (fun r => r.patient_id == q) := by
  induction t with
  | nil => rfl
  | cons r t ih =>
    rw [unique_keep_last]
    by_cases h : (unique_keep_last t).any (fun r2 => r2.patient_id == r.patient_id)
    · rw [if_pos h, ih, List.any_cons]
      cases hq : (r.patient_id == q) with
      | false => simp
      | true =>
        have hqe : r.patient_id = q := eq_of_beq hq
        subst hqe
        simp only [hq, Bool.true_or]
        rw [← ih]
        exact h
    · rw [if_neg h, List.any_cons, List.any_cons, ih]

/-- The deduplicated rows have pairwise distinct patient identifiers. -/
lemma unique_keep_last_nodup (t : List CRow) :
    ((unique_keep_last t).map (fun r => r.patient_id)).Nodup := by
  induction t with
  | nil => simp [unique_keep_last]
  | cons r t ih =>
    rw [unique_keep_last]
    by_cases h : (unique_keep_last t).any (fun r2 => r2.patient_id == r.patient_id)
    · rw [if_pos h]
      exact ih
    · rw [if_neg h, List.map_cons, List.nodup_cons]
      refine ⟨?_, ih⟩
      intro hmem
      rw [List.mem_map] at hmem
      obtain ⟨r2, hr2, hpid⟩ := hmem
      have h' : (unique_keep_last t).any (fun r2 => r2.patient_id == r.patient_id) = false := by
        simpa using h
      rw [List.any_eq_false] at h'
      exact h' r2 hr2 (beq_iff_eq.mpr hpid)

/-- A table with pairwise distinct patient identifiers has row count equal
to its distinct-patient count. -/
lemma nodup_length_eq (t : List CRow)
    (h : (t.map (fun r => r.patient_id)).Nodup) : t.length = n_unique_patients t := by
  unfold n_unique_patients
  rw [List.dedup_eq_self.mpr h, List.length_map]

/-- C1: finalization always succeeds and its output has exactly one row
per distinct patient (row count = distinct patient count); and any table
violating this invariant after deduplication makes the fatal assertion
abort before output is written. -/
theorem c1_spine_cardinality (t : List FRow) :
    (∀ u, finalize_cohort t = Except.ok u → u.length = n_unique_patients u) ∧
    (finalize_cohort t).isOk = true ∧
    (∀ v : List CRow, v.length ≠ n_unique_patients v →
      final_assert v = Except.error PipeError.assertionError) := by
  have hassert : ∀ v : List CRow, v.length ≠ n_unique_patients v →
      final_assert v = Except.error PipeError.assertionError := by
    intro v hv
    unfold final_assert
    rw [if_neg hv]
  have hok : ∀ v : List CRow, v.length = n_unique_patients v →
      final_assert v = Except.ok v := by
    intro v hv
    unfold final_assert
    rw [if_pos hv]
  have hmain : ∃ u, finalize_cohort t = Except.ok u ∧ u.length = n_unique_patients u := by
    unfold finalize_cohort
    by_cases hc : n_unique_patients (t.map drop_encounter_ids) = (t.map drop_encounter_ids).length
    · rw [if_pos hc]
      exact ⟨t.map drop_encounter_ids, hok _ hc.symm, hc.symm⟩
    · rw [if_neg hc]
      have hn := nodup_length_eq _ (unique_keep_last_nodup (t.map drop_encounter_ids))
      exact ⟨unique_keep_last (t.map drop_encounter_ids), hok _ hn, hn⟩
  obtain ⟨u, hu, hlen⟩ := hmain
  refine ⟨?_, ?_, hassert⟩
  · intro u' hu'
    rw [hu] at hu'
    injection hu' with he
    rw [← he]
    exact hlen
  · rw [hu]
    rfl

/-- C1 witness: the theorem applied to a concrete duplicated cohort (the
finalized run succeeds) and to a table that violates the invariant (the
assertion aborts). -/
theorem c1_witness :
    (finalize_cohort [⟨"p", "h1", 1, 10, none⟩, ⟨"p", "h2", 2, 20, some 3⟩]).isOk = true ∧
    final_assert [⟨"p", 10, none⟩, ⟨"p", 20, none⟩] = Except.error PipeError.assertionError :=
  ⟨(c1_spine_cardinality [⟨"p", "h1", 1, 10, none⟩, ⟨"p", "h2", 2, 20, some 3⟩]).2.1,
   (c1_spine_cardinality []).2.2 [⟨"p", 10, none⟩, ⟨"p", 20, none⟩] (by decide)⟩

/-- C8 counterexample: finalization's deduplication keeps the row that
occurs last in the frame, even when the earlier row for the same patient
is both more recent (later discharge) and more complete (non-null
covariate): the kept row here is the older, less complete one. -/
theorem c8_counterexample :
    unique_keep_last [⟨"p", 100, some 5⟩, ⟨"p", 50, none⟩] = [⟨"p", 50, none⟩] ∧
    ((⟨"p", 50, none⟩ : CRow).discharge_dttm < (⟨"p", 100, some 5⟩ : CRow).discharge_dttm) ∧
    (⟨"p", 50, none⟩ : CRow).covariate.isSome = false ∧
    (⟨"p", 100, some 5⟩ : CRow).covariate.isSome = true := by
  refine ⟨by decide, by decide, rfl, rfl⟩

/-- C8 (amended): when duplicate rows remain for a patient after the
encounter identifiers are dropped, finalization keeps, for each patient,
exactly the row occurring last in the table's current row order
(`unique(keep='last')`), with no completeness or recency criterion. -/
theorem c8_amended_keep_positionally_last (t : List CRow) (p : String) :
    (unique_keep_last t).filter (fun r => r.patient_id == p) =
      ((t.filter (fun r => r.patient_id == p)).getLast?).toList := by
  induction t with
  | nil => rfl
  | cons r t ih =>
    rw [unique_keep_last]
    by_cases h : (unique_keep_last t).any (fun r2 => r2.patient_id == r.patient_id)
    · rw [if_pos h, List.filter_cons]
      by_cases hq : (r.patient_id == p) = true
      · rw [if_pos hq]
        have hqe : r.patient_id = p := eq_of_beq hq
        subst hqe
        have hany : t.any (fun r2 => r2.patient_id == r.patient_id) = true := by
          rw [← unique_keep_last_any]
          exact h
        have hne : t.filter (fun r2 => r2.patient_id == r.patient_id) ≠ [] := by
          intro hnil
          rw [List.filter_eq_nil_iff] at hnil
          rw [List.any_eq_true] at hany
          obtain ⟨x, hx, hpx⟩ := hany
          exact hnil x hx hpx
        obtain ⟨a, l, hft⟩ : ∃ a l, t.filter (fun r2 => r2.patient_id == r.patient_id) = a :: l := by
          cases hft2 : t.filter (fun r2 => r2.patient_id == r.patient_id) with
          | nil => exact absurd hft2 hne
          | cons a l => exact ⟨a, l, rfl⟩
        rw [hft, List.getLast?_cons_cons, ← hft]
        exact ih
      · rw [if_neg hq]
        exact ih
    · rw [if_neg h, List.filter_cons, List.filter_cons]
      by_cases hq : (r.patient_id == p) = true
      · rw [if_pos hq, if_pos hq]
        have hqe : r.patient_id = p := eq_of_beq hq
        subst hqe
        have h' : (unique_keep_last t).any (fun r2 => r2.patient_id == r.patient_id) = false := by
          simpa using h
        have hany : t.any (fun r2 => r2.patient_id == r.patient_id) = false := by
          rw [← unique_keep_last_any]
          exact h'
        have hfe : t.filter (fun r2 => r2.patient_id == r.patient_id) = [] := by
          rw [List.filter_eq_nil_iff]
          rw [List.any_eq_false] at hany
          exact hany
        have hfe2 : (unique_keep_last t).filter (fun r2 => r2.patient_id == r.patient_id) = [] := by
          rw [List.filter_eq_nil_iff]
          rw [List.any_eq_false] at h'
          exact h'
        rw [hfe, hfe2, List.getLast?_singleton]
        rfl
      · rw [if_neg hq, if_neg hq]
        exact ih

example : micro_culture_filtered "Blood_Buffy" "CULTURE" = true := by decide
example : micro_culture_filtered "blood" "culture" = false := by decide
example : adjusted_death_dttm (some 10) (some 5) = some 5 := by decide
example : adjusted_death_dttm (some 5) (some 10) = some 5 := by decide
example : adjusted_death_dttm none (some 10) = none := by decide

end DonorId
